import Mathlib

/-!
Verification of the docling script collection.

The Python scripts in this repository glue an external document-understanding
library to the filesystem: they probe the returned document object's
attributes (`hasattr`/`getattr`), build plain dictionaries for serialization,
and write text/Markdown/JSON files.  This development embeds those scripts
shallowly:

* Python dictionaries built for serialization are association lists of
  `String × Val` (`Dict`), and the mutation idioms `d[k].append x`,
  `d[k] += s` are explicit functions on them;
* an attribute that the code probes with `hasattr`/`getattr` is an `Option`
  field of the corresponding record; an unguarded attribute access is an
  `Except` error (Python `AttributeError`);
* each script's observable behaviour is a trace of events (existence checks,
  converter invocations, file writes) together with an outcome (normal end,
  `sys.exit(code)`, or an uncaught exception, which ends the interpreter
  with process status 1);
* the external converter itself is an abstract parameter (`Sys`): a
  conversion either raises or returns an abstract document summary.
-/

namespace Docling

/-! ## Python values and dictionaries -/

/-- A Python value as it appears in the serialization dictionaries that the
scripts build: strings, numbers, `None`, lists and nested dictionaries. -/
inductive Val where
  | vstr (s : String)
  | vnat (n : Nat)
  | vnone
  | vlist (xs : List Val)
  | vdict (entries : List (String × Val))
deriving Repr

/-- A Python dictionary with string keys, in insertion order. -/
abbrev Dict := List (String × Val)

/-- Python `xs.append v` on the list stored under an existing key. -/
def appendVal : Val → Val → Val
  | .vlist xs, v => .vlist (xs ++ [v])
  | x, _ => x

/-- Python `s += t` on the string stored under an existing key. -/
def concatVal : Val → String → Val
  | .vstr s, t => .vstr (s ++ t)
  | x, _ => x

/-- `d[k].append v` for a key `k` already present in `d` and bound to a
list (dictionary mutation keeps insertion order). -/
def dictAppend (d : Dict) (k : String) (v : Val) : Dict :=
  d.map (fun kv => if kv.1 = k then (kv.1, appendVal kv.2 v) else kv)

/-- `d[k] += s` for a key `k` already present in `d` and bound to a string. -/
def dictConcat (d : Dict) (k : String) (s : String) : Dict :=
  d.map (fun kv => if kv.1 = k then (kv.1, concatVal kv.2 s) else kv)

/-- `d[k]` read as a string (the scripts only do this on keys they have
just initialised with a string value). -/
def lookupStr (d : Dict) (k : String) : String :=
  match d.lookup k with
  | some (.vstr s) => s
  | _ => ""

/-- The keys of a dictionary, in insertion order. -/
def dictKeys (d : Dict) : List String := d.map Prod.fst

/-- Concatenation of a list of strings (closed form for the `+=`
accumulation loops). -/
def joinStrings : List String → String
  | [] => ""
  | s :: rest => s ++ joinStrings rest

@[simp] theorem joinStrings_nil : joinStrings [] = "" := rfl

@[simp] theorem joinStrings_cons (s : String) (rest : List String) :
    joinStrings (s :: rest) = s ++ joinStrings rest := rfl

/-- Appending one mapped value per loop iteration is `List.map`. -/
theorem foldl_append_singleton {α β : Type} (f : α → β) (xs : List α) (acc : List β) :
    xs.foldl (fun rd x => rd ++ [f x]) acc = acc ++ xs.map f := by
  induction xs generalizing acc with
  | nil => simp
  | cons x xs ih => simp [ih]

/-! ## The probed document model

The scripts never import the library's classes for the document tree; they
probe generic objects with `hasattr`/`getattr`.  A field the code probes is
therefore an `Option`; `none` means the attribute is absent. -/

/-- Python `str.strip()`: remove leading and trailing whitespace
(structurally computable model of the stripping the final parser uses). -/
def pyStrip (s : String) : String :=
  String.mk (((s.data.dropWhile Char.isWhitespace).reverse.dropWhile Char.isWhitespace).reverse)

/-- A table cell as probed by the scripts: an optional `text` attribute. -/
structure Cell where
  text : Option String
deriving Repr, DecidableEq

/-- A table row as probed by the scripts: an optional `cells` attribute. -/
structure Row where
  cells : Option (List Cell)
deriving Repr, DecidableEq

/-- A page element as probed by `extract_document_content`: the Python class
name plus the optionally present attributes the code reads. -/
structure Element where
  className : String
  text : Option String
  bbox : Option String
  label : Option String
  rows : Option (List Row)
  caption : Option String
deriving Repr, DecidableEq

/-- A document page as probed by the scripts: an optional `elements`
attribute. -/
structure Page where
  elements : Option (List Element)
deriving Repr, DecidableEq

/-- The document object returned by the converter, as probed by
`offline_pdf_parser.extract_document_content`: optional `name` and `pages`
attributes. -/
structure Document where
  name : Option String
  pages : Option (List Page)
deriving Repr, DecidableEq

namespace OfflinePdfParser

/-- Inner loop of `offline_pdf_parser.extract_table_data`: the `row_data`
list built for one row, appending `getattr(cell, 'text', '')` for each cell
of the row's `cells` attribute (empty when the attribute is absent). -/
def row_data (row : Row) : List Val :=
  match row.cells with
  | none => []
  | some cells =>
      cells.foldl (fun rd cell => rd ++ [Val.vstr (cell.text.getD "")]) []

/-- Function `offline_pdf_parser.extract_table_data`: builds
`{"rows": [...], "headers": [], "caption": getattr(table_element, 'caption', '')}`,
looping over `table_element.rows` (if present) and appending one `row_data`
list per row. -/
def extract_table_data (table_element : Element) : Dict :=
  let table_data : Dict :=
    [("rows", .vlist []), ("headers", .vlist []),
     ("caption", .vstr (table_element.caption.getD ""))]
  match table_element.rows with
  | none => table_data
  | some rows =>
      rows.foldl (fun td row => dictAppend td "rows" (.vlist (row_data row))) table_data

/-- Python value of an optionally present string attribute read with
`getattr(x, attr, None)`. -/
def optStrVal : Option String → Val
  | some s => .vstr s
  | none => .vnone

/-- Dictionary `element_info` built for every element:
`{"type": ..., "text": getattr(element, 'text', ''), "bbox": ..., "label": ...}`. -/
def element_info (element : Element) : Val :=
  .vdict [("type", .vstr element.className),
          ("text", .vstr (element.text.getD "")),
          ("bbox", optStrVal element.bbox),
          ("label", optStrVal element.label)]

/-- Dictionary `figure_data` built for a `Figure`/`Picture` element on page
index `i` (0-based): `{"page": i + 1, "caption": ..., "bbox": ...}`. -/
def figure_data (i : Nat) (element : Element) : Val :=
  .vdict [("page", .vnat (i + 1)),
          ("caption", .vstr (element.caption.getD "")),
          ("bbox", optStrVal element.bbox)]

/-- Test `element.__class__.__name__ in ['Figure', 'Picture']`. -/
def isFigureClass (element : Element) : Prop :=
  element.className = "Figure" ∨ element.className = "Picture"

instance (element : Element) : Decidable (isFigureClass element) := by
  unfold isFigureClass; infer_instance

/-- Body of the `for element in page.elements` loop of
`extract_document_content`, threading the pair
(`page_content`, `content`): appends `element_info`, accumulates non-empty
element text, and collects tables and figures. -/
def process_element (i : Nat) (st : Dict × Dict) (element : Element) : Dict × Dict :=
  let page_content := dictAppend st.1 "elements" (element_info element)
  let page_content :=
    match element.text with
    | some t => if t ≠ "" then dictConcat page_content "text" (t ++ "\n") else page_content
    | none => page_content
  let st2 :=
    if element.className = "Table" then
      (dictAppend page_content "tables" (.vdict (extract_table_data element)),
       dictAppend st.2 "tables"
         (.vdict [("page", .vnat (i + 1)),
                  ("data", .vdict (extract_table_data element))]))
    else (page_content, st.2)
  if isFigureClass element then
    (dictAppend st2.1 "figures" (figure_data i element),
     dictAppend st2.2 "figures" (figure_data i element))
  else st2

/-- Body of the `for i, page in enumerate(document.pages)` loop: builds the
fresh `page_content` dictionary, runs the element loop if the page has an
`elements` attribute, then appends `page_content` to `content["pages"]` and
adds `page_content["text"]` to `content["text_content"]`. -/
def process_page (content : Dict) (ip : Nat × Page) : Dict :=
  let page_content : Dict :=
    [("page_number", .vnat (ip.1 + 1)), ("text", .vstr ""), ("elements", .vlist []),
     ("tables", .vlist []), ("figures", .vlist [])]
  let st :=
    match ip.2.elements with
    | some es => es.foldl (process_element ip.1) (page_content, content)
    | none => (page_content, content)
  let content := dictAppend st.2 "pages" (.vdict st.1)
  dictConcat content "text_content" (lookupStr st.1 "text")

/-- Dictionary `content["metadata"]` of `extract_document_content`: the
`name` attribute is probed with `hasattr` (default `"Unknown"`), and
`page_count` is `len(document.pages)` when the attribute is present, else 0. -/
def metadata_val (document : Document) : Val :=
  .vdict [("title", .vstr (document.name.getD "Unknown")),
          ("page_count", .vnat (match document.pages with
                                | some ps => ps.length
                                | none => 0)),
          ("processing_info", .vstr "Processed offline with Docling")]

/-- Function `offline_pdf_parser.extract_document_content`.  The initial
`content` dictionary guards `document.name` and `document.pages` with
`hasattr`, but the page loop `for i, page in enumerate(document.pages)`
reads `document.pages` unguarded: on a document without that attribute the
function raises `AttributeError` (modelled as `Except.error`). -/
def extract_document_content (document : Document) : Except String Dict :=
  let content : Dict :=
    [("metadata", metadata_val document),
     ("pages", .vlist []),
     ("tables", .vlist []),
     ("figures", .vlist []),
     ("text_content", .vstr ""),
     ("structure", .vlist [])]
  match document.pages with
  | none => .error "AttributeError: pages"
  | some ps => .ok ((ps.enum).foldl process_page content)

/-! Closed forms used to state the theorems about
`extract_document_content`; the characterization lemmas below prove that
the imperative folds above compute them. -/

/-- Text contributed to `page_content["text"]` by one element: its `text`
attribute plus a newline when the attribute is present and truthy
(non-empty). -/
def elementText (element : Element) : String :=
  match element.text with
  | some t => if t = "" then "" else t ++ "\n"
  | none => ""

/-- Entries contributed by one element to `page_content["tables"]`. -/
def elemTables (element : Element) : List Val :=
  if element.className = "Table" then [.vdict (extract_table_data element)] else []

/-- Entries contributed by one element to `content["tables"]`. -/
def elemContentTables (i : Nat) (element : Element) : List Val :=
  if element.className = "Table" then
    [.vdict [("page", .vnat (i + 1)), ("data", .vdict (extract_table_data element))]]
  else []

/-- Entries contributed by one element to the two `figures` lists. -/
def elemFigures (i : Nat) (element : Element) : List Val :=
  if isFigureClass element then [figure_data i element] else []

/-- Closed form of `page_content["text"]` for a whole page. -/
def pageText (page : Page) : String :=
  joinStrings ((page.elements.getD []).map elementText)

/-- Closed form of the finished `page_content` dictionary for page index
`i`. -/
def page_content_val (i : Nat) (page : Page) : Val :=
  .vdict [("page_number", .vnat (i + 1)),
          ("text", .vstr (pageText page)),
          ("elements", .vlist ((page.elements.getD []).map element_info)),
          ("tables", .vlist ((page.elements.getD []).flatMap elemTables)),
          ("figures", .vlist ((page.elements.getD []).flatMap (elemFigures i)))]

/-- Closed form of the entries one page adds to `content["tables"]`. -/
def pageContentTables (i : Nat) (page : Page) : List Val :=
  (page.elements.getD []).flatMap (elemContentTables i)

/-- Closed form of the entries one page adds to `content["figures"]`. -/
def pageFigures (i : Nat) (page : Page) : List Val :=
  (page.elements.getD []).flatMap (elemFigures i)

end OfflinePdfParser

namespace OfflinePdfParser

/-! ### Shape of the dictionaries built by `extract_document_content`

The loops of `extract_document_content` only ever mutate a dictionary of a
fixed shape; the lemmas below record how each mutation transforms that
shape, and the fold lemmas give the loops' closed forms. -/

/-- Shape of the `table_data` dictionary of `extract_table_data`. -/
def tdShape (rows : List Val) (caption : String) : Dict :=
  [("rows", .vlist rows), ("headers", .vlist []), ("caption", .vstr caption)]

theorem tdShape_append (rows : List Val) (caption : String) (v : Val) :
    dictAppend (tdShape rows caption) "rows" v = tdShape (rows ++ [v]) caption := rfl

/-- Value of one table row in the closed form of `extract_table_data`
(offline version: raw cell text). -/
def rowVal (row : Row) : Val :=
  .vlist ((row.cells.getD []).map (fun c => Val.vstr (c.text.getD "")))

theorem row_data_eq (row : Row) :
    row_data row = (row.cells.getD []).map (fun c => Val.vstr (c.text.getD "")) := by
  unfold row_data
  cases row.cells with
  | none => rfl
  | some cells => simp [foldl_append_singleton]

theorem foldl_rows_shape (rows : List Row) (acc : List Val) (caption : String) :
    rows.foldl (fun td row => dictAppend td "rows" (.vlist (row_data row)))
      (tdShape acc caption) = tdShape (acc ++ rows.map rowVal) caption := by
  induction rows generalizing acc with
  | nil => simp
  | cons r rs ih =>
    rw [List.foldl_cons, tdShape_append, ih]
    simp [rowVal, row_data_eq]

/-- Closed form of `offline_pdf_parser.extract_table_data`: a dictionary
with exactly the keys `rows`, `headers`, `caption`, where `headers` is
always empty and `rows` lists each row's cell texts in order. -/
theorem extract_table_data_eq (t : Element) :
    extract_table_data t = tdShape ((t.rows.getD []).map rowVal) (t.caption.getD "") := by
  unfold extract_table_data
  cases ht : t.rows with
  | none => rfl
  | some rows =>
    show rows.foldl _ (tdShape [] (t.caption.getD "")) = _
    rw [foldl_rows_shape]
    simp

/-- Shape of the `page_content` dictionary inside the page loop. -/
def pcShape (n : Nat) (tx : String) (els tbs fgs : List Val) : Dict :=
  [("page_number", .vnat n), ("text", .vstr tx), ("elements", .vlist els),
   ("tables", .vlist tbs), ("figures", .vlist fgs)]

/-- Shape of the `content` dictionary of `extract_document_content`. -/
def cShape (meta : Val) (pgs tbs fgs : List Val) (tx : String) (st : List Val) : Dict :=
  [("metadata", meta), ("pages", .vlist pgs), ("tables", .vlist tbs),
   ("figures", .vlist fgs), ("text_content", .vstr tx), ("structure", .vlist st)]

theorem pcShape_append_elements (n : Nat) (tx : String) (els tbs fgs : List Val) (v : Val) :
    dictAppend (pcShape n tx els tbs fgs) "elements" v = pcShape n tx (els ++ [v]) tbs fgs := rfl

theorem pcShape_concat_text (n : Nat) (tx : String) (els tbs fgs : List Val) (s : String) :
    dictConcat (pcShape n tx els tbs fgs) "text" s = pcShape n (tx ++ s) els tbs fgs := rfl

theorem pcShape_append_tables (n : Nat) (tx : String) (els tbs fgs : List Val) (v : Val) :
    dictAppend (pcShape n tx els tbs fgs) "tables" v = pcShape n tx els (tbs ++ [v]) fgs := rfl

theorem pcShape_append_figures (n : Nat) (tx : String) (els tbs fgs : List Val) (v : Val) :
    dictAppend (pcShape n tx els tbs fgs) "figures" v = pcShape n tx els tbs (fgs ++ [v]) := rfl

theorem lookupStr_pcShape_text (n : Nat) (tx : String) (els tbs fgs : List Val) :
    lookupStr (pcShape n tx els tbs fgs) "text" = tx := rfl

theorem cShape_append_pages (meta : Val) (pgs tbs fgs : List Val) (tx : String)
    (st : List Val) (v : Val) :
    dictAppend (cShape meta pgs tbs fgs tx st) "pages" v =
      cShape meta (pgs ++ [v]) tbs fgs tx st := rfl

theorem cShape_append_tables (meta : Val) (pgs tbs fgs : List Val) (tx : String)
    (st : List Val) (v : Val) :
    dictAppend (cShape meta pgs tbs fgs tx st) "tables" v =
      cShape meta pgs (tbs ++ [v]) fgs tx st := rfl

theorem cShape_append_figures (meta : Val) (pgs tbs fgs : List Val) (tx : String)
    (st : List Val) (v : Val) :
    dictAppend (cShape meta pgs tbs fgs tx st) "figures" v =
      cShape meta pgs tbs (fgs ++ [v]) tx st := rfl

theorem cShape_concat_text (meta : Val) (pgs tbs fgs : List Val) (tx : String)
    (st : List Val) (s : String) :
    dictConcat (cShape meta pgs tbs fgs tx st) "text_content" s =
      cShape meta pgs tbs fgs (tx ++ s) st := rfl

/-- One element-loop iteration on dictionaries of the invariant shape. -/
theorem process_element_shape (i n : Nat) (tx : String) (els ptbs pfgs : List Val)
    (meta : Val) (pgs tbs fgs : List Val) (txc : String) (st : List Val) (e : Element) :
    process_element i (pcShape n tx els ptbs pfgs, cShape meta pgs tbs fgs txc st) e =
      (pcShape n (tx ++ elementText e) (els ++ [element_info e])
        (ptbs ++ elemTables e) (pfgs ++ elemFigures i e),
       cShape meta pgs (tbs ++ elemContentTables i e) (fgs ++ elemFigures i e) txc st) := by
  unfold process_element elementText elemTables elemContentTables elemFigures
  cases he : e.text with
  | none =>
    by_cases hT : e.className = "Table" <;> by_cases hF : isFigureClass e <;>
      simp [he, hT, hF, pcShape_append_elements, pcShape_concat_text, pcShape_append_tables,
        pcShape_append_figures, cShape_append_tables, cShape_append_figures]
  | some t =>
    by_cases htv : t = "" <;> by_cases hT : e.className = "Table" <;>
      by_cases hF : isFigureClass e <;>
        simp [he, htv, hT, hF, pcShape_append_elements, pcShape_concat_text,
          pcShape_append_tables, pcShape_append_figures, cShape_append_tables,
          cShape_append_figures]

/-- Closed form of the whole element loop. -/
theorem foldl_process_element_shape (i : Nat) (es : List Element) :
    ∀ (n : Nat) (tx : String) (els ptbs pfgs : List Val) (meta : Val)
      (pgs tbs fgs : List Val) (txc : String) (st : List Val),
    es.foldl (process_element i) (pcShape n tx els ptbs pfgs, cShape meta pgs tbs fgs txc st) =
      (pcShape n (tx ++ joinStrings (es.map elementText)) (els ++ es.map element_info)
        (ptbs ++ es.flatMap elemTables) (pfgs ++ es.flatMap (elemFigures i)),
       cShape meta pgs (tbs ++ es.flatMap (elemContentTables i))
         (fgs ++ es.flatMap (elemFigures i)) txc st) := by
  induction es with
  | nil => intros; simp
  | cons e es ih =>
    intros
    rw [List.foldl_cons, process_element_shape, ih]
    simp [List.append_assoc, String.append_assoc]

/-- One page-loop iteration on a `content` dictionary of the invariant
shape. -/
theorem process_page_shape (meta : Val) (pgs tbs fgs : List Val) (txc : String)
    (st : List Val) (ip : Nat × Page) :
    process_page (cShape meta pgs tbs fgs txc st) ip =
      cShape meta (pgs ++ [page_content_val ip.1 ip.2]) (tbs ++ pageContentTables ip.1 ip.2)
        (fgs ++ pageFigures ip.1 ip.2) (txc ++ pageText ip.2) st := by
  obtain ⟨i, page⟩ := ip
  unfold process_page
  cases hpe : page.elements with
  | none =>
    simp [hpe, page_content_val, pageContentTables, pageFigures, pageText,
      cShape_append_pages, cShape_concat_text, lookupStr, List.lookup, pcShape]
  | some es =>
    show (dictConcat (dictAppend
        (es.foldl (process_element i) (pcShape (i + 1) "" [] [] [],
          cShape meta pgs tbs fgs txc st)).2 "pages"
        (.vdict (es.foldl (process_element i) (pcShape (i + 1) "" [] [] [],
          cShape meta pgs tbs fgs txc st)).1)) "text_content"
        (lookupStr (es.foldl (process_element i) (pcShape (i + 1) "" [] [] [],
          cShape meta pgs tbs fgs txc st)).1 "text")) = _
    rw [foldl_process_element_shape]
    simp [cShape_append_pages, cShape_concat_text, lookupStr, List.lookup,
      page_content_val, pageContentTables, pageFigures, pageText, hpe, pcShape]

/-- Closed form of the whole page loop, for any list of (index, page)
pairs. -/
theorem foldl_process_page_shape (L : List (Nat × Page)) :
    ∀ (meta : Val) (pgs tbs fgs : List Val) (txc : String) (st : List Val),
    L.foldl process_page (cShape meta pgs tbs fgs txc st) =
      cShape meta (pgs ++ L.map (fun ip => page_content_val ip.1 ip.2))
        (tbs ++ L.flatMap (fun ip => pageContentTables ip.1 ip.2))
        (fgs ++ L.flatMap (fun ip => pageFigures ip.1 ip.2))
        (txc ++ joinStrings (L.map (fun ip => pageText ip.2))) st := by
  induction L with
  | nil => intros; simp
  | cons ip L ih =>
    intros
    rw [List.foldl_cons, process_page_shape, ih]
    simp [List.append_assoc, String.append_assoc]

/-- Full closed form of `extract_document_content` on a document whose
`pages` attribute is present. -/
theorem extract_document_content_spec (document : Document) (ps : List Page)
    (h : document.pages = some ps) :
    extract_document_content document =
      .ok (cShape (metadata_val document)
            ((ps.enum).map (fun ip => page_content_val ip.1 ip.2))
            ((ps.enum).flatMap (fun ip => pageContentTables ip.1 ip.2))
            ((ps.enum).flatMap (fun ip => pageFigures ip.1 ip.2))
            (joinStrings (ps.map pageText)) []) := by
  unfold extract_document_content
  rw [h]
  show Except.ok ((ps.enum).foldl process_page
    (cShape (metadata_val document) [] [] [] "" [])) = _
  rw [foldl_process_page_shape]
  have hsnd : (ps.enum).map (fun ip => pageText ip.2) = ps.map pageText := by
    rw [show (fun ip : Nat × Page => pageText ip.2) = pageText ∘ Prod.snd from rfl,
      ← List.map_map, List.enum_map_snd]
  rw [hsnd]
  simp

/-- Non-error case: on any document with a `pages` attribute the walk
returns a dictionary. -/
theorem extract_document_content_isOk (document : Document) (ps : List Page)
    (h : document.pages = some ps) :
    ∃ d, extract_document_content document = .ok d :=
  ⟨_, extract_document_content_spec document ps h⟩

end OfflinePdfParser

namespace FinalOfflineParser

/-- Inner loop of `final_offline_parser.extract_table_data`: each cell
contributes `cell_text.strip()` where
`cell_text = getattr(cell, 'text', '') if hasattr(cell, 'text') else ''`. -/
def row_data (row : Row) : List Val :=
  match row.cells with
  | none => []
  | some cells =>
      cells.foldl (fun rd cell => rd ++ [Val.vstr (pyStrip (cell.text.getD ""))]) []

/-- Function `final_offline_parser.extract_table_data`: identical to the
`offline_pdf_parser` version except that each cell's text is
whitespace-stripped before being appended. -/
def extract_table_data (table_item : Element) : Dict :=
  let table_data : Dict :=
    [("rows", .vlist []), ("headers", .vlist []),
     ("caption", .vstr (table_item.caption.getD ""))]
  match table_item.rows with
  | none => table_data
  | some rows =>
      rows.foldl (fun td row => dictAppend td "rows" (.vlist (row_data row))) table_data

/-- Value of one table row in the closed form of the final parser's
`extract_table_data` (stripped cell text). -/
def rowValStripped (row : Row) : Val :=
  .vlist ((row.cells.getD []).map (fun c => Val.vstr (pyStrip (c.text.getD ""))))

theorem final_row_data_eq (row : Row) :
    row_data row = (row.cells.getD []).map (fun c => Val.vstr (pyStrip (c.text.getD ""))) := by
  unfold row_data
  cases row.cells with
  | none => rfl
  | some cells => simp [foldl_append_singleton]

theorem final_foldl_rows_shape (rows : List Row) (acc : List Val) (caption : String) :
    rows.foldl (fun td row => dictAppend td "rows" (.vlist (row_data row)))
      (OfflinePdfParser.tdShape acc caption) =
      OfflinePdfParser.tdShape (acc ++ rows.map rowValStripped) caption := by
  induction rows generalizing acc with
  | nil => simp
  | cons r rs ih =>
    rw [List.foldl_cons, OfflinePdfParser.tdShape_append, ih]
    simp [rowValStripped, final_row_data_eq]

/-- Closed form of `final_offline_parser.extract_table_data`. -/
theorem final_extract_table_data_eq (t : Element) :
    extract_table_data t =
      OfflinePdfParser.tdShape ((t.rows.getD []).map rowValStripped) (t.caption.getD "") := by
  unfold extract_table_data
  cases ht : t.rows with
  | none => rfl
  | some rows =>
    show rows.foldl _ (OfflinePdfParser.tdShape [] (t.caption.getD "")) = _
    rw [final_foldl_rows_shape]
    simp

end FinalOfflineParser

/-- Repetition `s * n` of a Python string. -/
def strRepeat (s : String) (n : Nat) : String :=
  joinStrings (List.replicate n s)

/-- Generic loop `for x in xs: acc += f x` on list accumulators. -/
theorem foldl_append_flatMap {α β : Type} (f : α → List β) (xs : List α) (acc : List β) :
    xs.foldl (fun a x => a ++ f x) acc = acc ++ xs.flatMap f := by
  induction xs generalizing acc with
  | nil => simp
  | cons x xs ih => simp [ih]

/-- A document item as probed by `final_offline_parser.extract_text_from_item`:
Python class name plus the optionally present attributes the walk reads
(`text`, `rows`, `caption`, `level`, `children`). -/
inductive Item where
  | mk (className : String) (text : Option String) (rows : Option (List Row))
      (caption : Option String) (level : Option Nat) (children : Option (List Item))

def Item.className : Item → String
  | .mk c _ _ _ _ _ => c

def Item.text : Item → Option String
  | .mk _ t _ _ _ _ => t

def Item.rows : Item → Option (List Row)
  | .mk _ _ r _ _ _ => r

def Item.caption : Item → Option String
  | .mk _ _ _ c _ _ => c

def Item.level : Item → Option Nat
  | .mk _ _ _ _ l _ => l

def Item.children : Item → Option (List Item)
  | .mk _ _ _ _ _ ch => ch

namespace FinalOfflineParser

/-- Table row line of `extract_text_from_item`: rows without a `cells`
attribute are skipped; a cell contributes `cell.text.strip()` when its
`text` attribute is present and truthy; the `| ... |` line is emitted only
when `row_text` is non-empty. -/
def rowLine (indent : String) (row : Row) : List String :=
  match row.cells with
  | none => []
  | some cells =>
      let row_text := cells.foldl (fun acc cell =>
        match cell.text with
        | some t => if t ≠ "" then acc ++ [pyStrip t] else acc
        | none => acc) []
      if row_text ≠ [] then
        [indent ++ "  | " ++ String.intercalate " | " row_text ++ " |"]
      else []

/-- Non-recursive part of `extract_text_from_item`: the `text_parts` lines
the item contributes before its children are visited.  Mirrors the
statement order of the Python body: the `hasattr(item, 'text')` block, then
the `item_type` if/elif chain. -/
def ownParts (item : Item) (level : Nat) : List String :=
  let indent := strRepeat "  " level
  let item_type := item.className
  let p1 : List String :=
    match item.text with
    | some t => if t ≠ "" then [indent ++ "[" ++ item_type ++ "] " ++ t] else []
    | none => []
  let p2 : List String :=
    if item_type = "TableItem" then
      match item.rows with
      | none => []
      | some rows =>
          (indent ++ "[TABLE]") :: rows.foldl (fun acc row => acc ++ rowLine indent row) []
    else if item_type = "PictureItem" then
      [indent ++ "[PICTURE] " ++ item.caption.getD ""]
    else if item_type = "HeadingItem" then
      [indent ++ strRepeat "#" (item.level.getD 1) ++ " " ++ item.text.getD ""]
    else if item_type = "ListItem" then
      [indent ++ "- " ++ item.text.getD ""]
    else []
  p1 ++ p2

mutual

/-- Function `final_offline_parser.extract_text_from_item`: the item's own
lines followed by the recursive walk of its `children` attribute, if
present. -/
def extract_text_from_item : Item → Nat → List String
  | .mk cn tx rws cap lv none, level =>
      ownParts (.mk cn tx rws cap lv none) level
  | .mk cn tx rws cap lv (some cs), level =>
      ownParts (.mk cn tx rws cap lv (some cs)) level ++ extract_children cs (level + 1)

/-- Loop `for child in item.children` of `extract_text_from_item`. -/
def extract_children : List Item → Nat → List String
  | [], _ => []
  | c :: cs, level => extract_text_from_item c level ++ extract_children cs level

end

end FinalOfflineParser

/-! ## Script-level model

Each CLI script is modelled as a function of an abstract external world
`Sys` (the filesystem and the external converter), returning a trace of
observable events and an outcome.  The external library is a parameter: a
conversion either raises (`convertFails`) or yields an abstract document
summary.  Environment variables are a total map `Env`. -/

/-- Abstract summary of the document object the external converter
returns: the exported text and markdown and the sizes the scripts read. -/
structure DocRes where
  text : String
  markdown : String
  tables : Nat
  pictures : Nat
  pages : Nat
deriving Repr, DecidableEq

/-- The external world of one script run. -/
structure Sys where
  fileExists : String → Bool
  convertFails : String → Bool
  ocrDoc : String → Bool → DocRes
  vlmDoc : String → DocRes
  durOf : String → Nat

/-- Observable events of a script run. -/
inductive Ev where
  | checkExists (path : String)
  | convert (path : String) (pipeline : String)
  | warn (msg : String)
  | writeFile (path : String)
  | spawnWorker (file : String) (gpu : Nat)
deriving Repr, DecidableEq

def Ev.isConvert : Ev → Bool
  | .convert _ _ => true
  | _ => false

def Ev.isSpawn : Ev → Bool
  | .spawnWorker _ _ => true
  | _ => false

/-- How a script run ends: `sys.exit(code)`, an uncaught exception, or
falling off the end of the script. -/
inductive Outcome where
  | exit (code : Nat)
  | uncaughtExc
  | finished
deriving Repr, DecidableEq

/-- Process status of an outcome: the Python interpreter exits with status
1 on an uncaught exception and 0 on normal termination. -/
def Outcome.status : Outcome → Nat
  | .exit c => c
  | .uncaughtExc => 1
  | .finished => 0

/-- Environment variables as a total map. -/
abbrev Env := String → Option String

/-- Python `os.environ[k] = v`. -/
def setEnv (env : Env) (k v : String) : Env :=
  fun q => if q = k then some v else env q

/-- Character-level split (structurally computable counterpart of Python
`str.split(sep)` for a one-character separator). -/
def splitOnCharAux : List Char → Char → List Char → List (List Char)
  | [], _, acc => [acc.reverse]
  | c :: cs, sep, acc =>
      if c = sep then acc.reverse :: splitOnCharAux cs sep []
      else splitOnCharAux cs sep (c :: acc)

/-- Character-level `sep.join`. -/
def joinWithChar (sep : Char) : List (List Char) → List Char
  | [] => []
  | [x] => x
  | x :: xs => x ++ sep :: joinWithChar sep xs

/-- Python `pathlib.Path(p).name`: the final path component. -/
def pyBasename (p : String) : String :=
  String.mk ((splitOnCharAux p.data '/' []).getLastD p.data)

/-- Python `pathlib.Path(p).stem`: the final component without its last
suffix. -/
def pyStem (p : String) : String :=
  let n := (pyBasename p).data
  let parts := splitOnCharAux n '.' []
  if parts.length ≤ 1 then String.mk n else String.mk (joinWithChar '.' parts.dropLast)

/-- The model-artifacts directory `os.path.expanduser("~/.cache/docling/models")`
(kept abstract: the expansion of `~` is irrelevant to every claim). -/
def artifacts_path : String := "~/.cache/docling/models"

namespace MultiprocessParser

/-- Function `multiprocess_parser.setup_offline`: sets the three
offline-mode environment variables. -/
def setup_offline (env : Env) : Env :=
  setEnv (setEnv (setEnv env "DOCLING_ARTIFACTS_PATH" artifacts_path)
    "HF_HUB_OFFLINE" "1") "TRANSFORMERS_OFFLINE" "1"

/-- The stats dictionary returned by `process_full_document_ocr` /
`process_full_document_vlm`. -/
structure Stats where
  method : String
  time : Nat
  text_chars : Nat
  markdown_chars : Nat
  tables : Nat
  pictures : Nat
  pages : Nat
  text : String
  markdown : String
deriving Repr, DecidableEq

/-- Function `multiprocess_parser.process_full_document_ocr`: one
whole-document OCR conversion; the `converter.convert` call is not inside
any `try`, so a failure propagates to the caller (`Except.error`). -/
def process_full_document_ocr (sys : Sys) (pdf_path : String) (use_gpu : Bool) :
    List Ev × Except String Stats :=
  if sys.convertFails pdf_path then ([Ev.convert pdf_path "ocr"], .error "ConversionError")
  else
    let doc := sys.ocrDoc pdf_path use_gpu
    ([Ev.convert pdf_path "ocr"],
     .ok { method := "OCR", time := sys.durOf pdf_path, text_chars := doc.text.length,
           markdown_chars := doc.markdown.length, tables := doc.tables,
           pictures := doc.pictures, pages := doc.pages, text := doc.text,
           markdown := doc.markdown })

/-- Function `multiprocess_parser.process_full_document_vlm`: same shape
with the VLM pipeline (ignores `use_gpu`, like the source). -/
def process_full_document_vlm (sys : Sys) (pdf_path : String) :
    List Ev × Except String Stats :=
  if sys.convertFails pdf_path then ([Ev.convert pdf_path "vlm"], .error "ConversionError")
  else
    let doc := sys.vlmDoc pdf_path
    ([Ev.convert pdf_path "vlm"],
     .ok { method := "VLM", time := sys.durOf pdf_path, text_chars := doc.text.length,
           markdown_chars := doc.markdown.length, tables := doc.tables,
           pictures := doc.pictures, pages := doc.pages, text := doc.text,
           markdown := doc.markdown })

/-- Function `multiprocess_parser.process_with_multiprocessing`: after
`setup_offline`, with `num_processes <= 1` it runs one whole-document
conversion in the calling process; with more processes it only sets three
thread-count environment variables and then runs exactly the same single
conversion in the calling process — no `multiprocessing` worker is ever
created. -/
def process_with_multiprocessing (sys : Sys) (pdf_path method : String) (use_gpu : Bool)
    (num_processes : Int) (env : Env) : Env × List Ev × Except String Stats :=
  let env := setup_offline env
  if num_processes ≤ 1 then
    if method = "ocr" then (env, process_full_document_ocr sys pdf_path use_gpu)
    else (env, process_full_document_vlm sys pdf_path)
  else
    let env := setEnv env "OMP_NUM_THREADS" (toString num_processes)
    let env := setEnv env "MKL_NUM_THREADS" (toString num_processes)
    let env := setEnv env "NUMEXPR_NUM_THREADS" (toString num_processes)
    if method = "ocr" then (env, process_full_document_ocr sys pdf_path use_gpu)
    else (env, process_full_document_vlm sys pdf_path)

/-- Tail of `multiprocess_parser.main` after argument parsing: existence
check (exit 1 on a missing file before any converter work), then the
conversion (whose exception would be uncaught — `main` has no
`try`/`except`), then the two output files
`output/<stem>_<method>_multiprocess.{txt,md}`. -/
def main_after_args (sys : Sys) (env : Env) (pdf_file method : String)
    (num_processes : Int) (use_gpu : Bool) : List Ev × Outcome :=
  if sys.fileExists pdf_file = false then ([Ev.checkExists pdf_file], .exit 1)
  else
    let r := process_with_multiprocessing sys pdf_file method use_gpu num_processes env
    match r.2.2 with
    | .error _ => (Ev.checkExists pdf_file :: r.2.1, .uncaughtExc)
    | .ok _ =>
        (Ev.checkExists pdf_file :: r.2.1 ++
          [Ev.writeFile ("output/" ++ pyStem pdf_file ++ "_" ++ method ++ "_multiprocess.txt"),
           Ev.writeFile ("output/" ++ pyStem pdf_file ++ "_" ++ method ++ "_multiprocess.md")],
         .finished)

/-- Function `multiprocess_parser.main`: usage exit when no PDF argument,
`int(sys.argv[3])` may raise `ValueError` (uncaught), then
`main_after_args`. -/
def main_run (sys : Sys) (argv : List String) (env : Env) : List Ev × Outcome :=
  match argv with
  | _script :: pdf_file :: rest =>
      let method := (rest[0]?).getD "ocr"
      match rest[1]? with
      | some s =>
          match s.toInt? with
          | none => ([], .uncaughtExc)
          | some n =>
              let use_gpu := match rest[2]? with
                | some g => g.toLower == "true"
                | none => true
              main_after_args sys env pdf_file method n use_gpu
      | none => main_after_args sys env pdf_file method 1 true
  | _ => ([], .exit 1)

end MultiprocessParser

namespace ParallelGpuParser

/-- The per-file `content` dictionary a parallel worker returns. -/
structure PContent where
  file : String
  gpu_id : Nat
  pages : Nat
  text_length : Nat
  tables : Nat
  pictures : Nat
  processing_time : Nat
deriving Repr, DecidableEq

/-- The `content` dictionary built by a successful
`parallel_gpu_parser.process_single_pdf` call. -/
def worker_content (sys : Sys) (pdf_path : String) (gpu_id : Nat) : PContent :=
  let doc := sys.ocrDoc pdf_path true
  { file := pyBasename pdf_path, gpu_id := gpu_id, pages := doc.pages,
    text_length := doc.text.length, tables := doc.tables, pictures := doc.pictures,
    processing_time := sys.durOf pdf_path }

/-- Observable behaviour of one worker: the `CUDA_VISIBLE_DEVICES` value it
sets, the returned value, and its file writes. -/
structure WorkerRun where
  envCuda : String
  result : Option PContent
  writes : List String
deriving Repr, DecidableEq

/-- Function `parallel_gpu_parser.process_single_pdf`: sets
`CUDA_VISIBLE_DEVICES` to `str(gpu_id)`; the whole body is inside
`try`/`except`, so on a conversion failure it logs and returns `None`;
on success it writes `output_gpu_<id>/<stem>_text.txt` and
`output_gpu_<id>/<stem>_content.md` and returns the content dictionary. -/
def process_single_pdf (sys : Sys) (pdf_path : String) (gpu_id : Nat) : WorkerRun :=
  if sys.convertFails pdf_path then
    { envCuda := toString gpu_id, result := none, writes := [] }
  else
    { envCuda := toString gpu_id,
      result := some (worker_content sys pdf_path gpu_id),
      writes := ["output_gpu_" ++ toString gpu_id ++ "/" ++ pyStem pdf_path ++ "_text.txt",
                 "output_gpu_" ++ toString gpu_id ++ "/" ++ pyStem pdf_path ++ "_content.md"] }

/-- Submission loop of `parallel_gpu_parser.main`: the i-th file (0-based)
is submitted with `gpu_id = i % num_gpus`. -/
def submissions (pdf_files : List String) (num_gpus : Nat) : List (String × Nat) :=
  pdf_files.enum.map (fun ip => (ip.2, ip.1 % num_gpus))

/-- Results of the submitted futures, in submission order. -/
def submittedResults (sys : Sys) (pdf_files : List String) (num_gpus : Nat) :
    List (Option PContent) :=
  (submissions pdf_files num_gpus).map (fun fg => (process_single_pdf sys fg.1 fg.2).result)

/-- Collection loop `for future in as_completed(futures): if result:
results.append(result)` over the arrival order of the futures (a worker's
dictionary is never empty, so its truthiness test is its being
non-`None`). -/
def collectResults (arrival : List (Option PContent)) : List PContent :=
  arrival.foldl (fun results r =>
    match r with
    | some c => results ++ [c]
    | none => results) []

/-- Function `parallel_gpu_parser.main` after conversion: exit 1 when the
directory holds no PDF, then the summary, whose two divisions
`total_time / len(results)` and `sum(processing_time) / total_time` raise
`ZeroDivisionError` on a zero divisor. -/
def main_run (_sys : Sys) (pdf_files : List String) (_num_gpus : Nat)
    (arrival : List (Option PContent)) (total_time : Nat) :
    Except String (List PContent × Nat × Nat) :=
  if pdf_files.isEmpty then .error "exit 1: no PDF files found"
  else
    let results := collectResults arrival
    if results.length = 0 then .error "ZeroDivisionError: len(results)"
    else if total_time = 0 then .error "ZeroDivisionError: total_time"
    else .ok (results, total_time / results.length,
              (results.map (fun r => r.processing_time)).sum / total_time)

theorem collectResults_eq_filterMap (arrival : List (Option PContent)) :
    collectResults arrival = arrival.filterMap id := by
  unfold collectResults
  have aux : ∀ (arr : List (Option PContent)) (acc : List PContent),
      arr.foldl (fun results r =>
        match r with
        | some c => results ++ [c]
        | none => results) acc = acc ++ arr.filterMap id := by
    intro arr
    induction arr with
    | nil => intro acc; simp
    | cons r rs ih =>
        intro acc
        cases r with
        | some c => simp [ih]
        | none => simp [ih]
  simpa using aux arrival []

end ParallelGpuParser

namespace OfflinePdfParser

/-- File paths written by `offline_pdf_parser.save_results`, in write
order: JSON, Markdown, plain text. -/
def save_results_writes (output_dir : String) (pdf_name : String) : List String :=
  [output_dir ++ "/" ++ pyStem pdf_name ++ "_content.json",
   output_dir ++ "/" ++ pyStem pdf_name ++ "_content.md",
   output_dir ++ "/" ++ pyStem pdf_name ++ "_text.txt"]

/-- Hardcoded input of `offline_pdf_parser.main`. -/
def pdf_file : String := "companies_house_document.pdf"

/-- Function `offline_pdf_parser.main`: existence check with `sys.exit(1)`
before any converter work; `process_pdf_offline` re-checks the PDF, checks
the model-artifacts directory, and wraps the conversion in `try`/`except`
(warning + exit 1); on success the extraction runs and `save_results`
writes the three output files.  A conversion failure is caught (inner
handler), any other exception by `main`'s own handler — both exit 1. -/
def main_run (sys : Sys) : List Ev × Outcome :=
  if sys.fileExists pdf_file = false then ([Ev.checkExists pdf_file], .exit 1)
  else if sys.fileExists artifacts_path = false then
    ([Ev.checkExists pdf_file, Ev.checkExists pdf_file, Ev.checkExists artifacts_path], .exit 1)
  else if sys.convertFails pdf_file then
    ([Ev.checkExists pdf_file, Ev.checkExists pdf_file, Ev.checkExists artifacts_path,
      Ev.convert pdf_file "ocr", Ev.warn "Error during PDF conversion"], .exit 1)
  else
    ([Ev.checkExists pdf_file, Ev.checkExists pdf_file, Ev.checkExists artifacts_path,
      Ev.convert pdf_file "ocr"] ++ (save_results_writes "output" pdf_file).map Ev.writeFile,
     .finished)

end OfflinePdfParser

namespace FinalOfflineParser

/-- File paths written by `final_offline_parser.save_results` — the same
three names as the `offline_pdf_parser` version. -/
def save_results_writes (output_dir : String) (pdf_name : String) : List String :=
  [output_dir ++ "/" ++ pyStem pdf_name ++ "_content.json",
   output_dir ++ "/" ++ pyStem pdf_name ++ "_content.md",
   output_dir ++ "/" ++ pyStem pdf_name ++ "_text.txt"]

/-- Hardcoded input of `final_offline_parser.main`. -/
def pdf_file : String := "companies_house_document.pdf"

/-- Function `final_offline_parser.main`: structurally identical to
`offline_pdf_parser.main` (existence checks, wrapped conversion, three
output files). -/
def main_run (sys : Sys) : List Ev × Outcome :=
  if sys.fileExists pdf_file = false then ([Ev.checkExists pdf_file], .exit 1)
  else if sys.fileExists artifacts_path = false then
    ([Ev.checkExists pdf_file, Ev.checkExists pdf_file, Ev.checkExists artifacts_path], .exit 1)
  else if sys.convertFails pdf_file then
    ([Ev.checkExists pdf_file, Ev.checkExists pdf_file, Ev.checkExists artifacts_path,
      Ev.convert pdf_file "ocr", Ev.warn "Error during PDF conversion"], .exit 1)
  else
    ([Ev.checkExists pdf_file, Ev.checkExists pdf_file, Ev.checkExists artifacts_path,
      Ev.convert pdf_file "ocr"] ++ (save_results_writes "output" pdf_file).map Ev.writeFile,
     .finished)

end FinalOfflineParser

namespace MultiGpuOfflineParser

/-- File paths written by `multi_gpu_offline_parser.process_pdf` on
success: note the JSON file is named `<stem>_data.json`, not
`<stem>_content.json`. -/
def output_writes (output_dir : String) (pdf_path : String) : List String :=
  [output_dir ++ "/" ++ pyStem pdf_path ++ "_text.txt",
   output_dir ++ "/" ++ pyStem pdf_path ++ "_content.md",
   output_dir ++ "/" ++ pyStem pdf_path ++ "_data.json"]

/-- Function `multi_gpu_offline_parser.main`: the PDF path is
`sys.argv[1]` or a hardcoded default; `process_pdf` exits 1 on a missing
file before creating the converter (`SystemExit` passes through `main`'s
`except Exception`); a conversion failure is caught by `main` (warning +
exit 1); on success three files are written. -/
def main_run (sys : Sys) (argv : List String) : List Ev × Outcome :=
  let pdf_file := (argv[1]?).getD "companies_house_document.pdf"
  if sys.fileExists pdf_file = false then ([Ev.checkExists pdf_file], .exit 1)
  else if sys.fileExists artifacts_path = false then
    ([Ev.checkExists pdf_file, Ev.checkExists artifacts_path], .exit 1)
  else if sys.convertFails pdf_file then
    ([Ev.checkExists pdf_file, Ev.checkExists artifacts_path, Ev.convert pdf_file "ocr",
      Ev.warn "Error"], .exit 1)
  else
    ([Ev.checkExists pdf_file, Ev.checkExists artifacts_path, Ev.convert pdf_file "ocr"] ++
      (output_writes "output" pdf_file).map Ev.writeFile, .finished)

end MultiGpuOfflineParser

namespace FastGpuParser

/-- Hardcoded input of the module-level script `fast_gpu_parser.py`. -/
def pdf_file : String := "companies_house_document_2.pdf"

/-- Module-level body of `fast_gpu_parser.py`: no existence check and no
`try`/`except` anywhere — `converter.convert` is called directly on the
hardcoded path, so a conversion failure (in particular a missing file)
propagates as an uncaught exception after the converter has been
invoked. -/
def run (sys : Sys) : List Ev × Outcome :=
  if sys.convertFails pdf_file then ([Ev.convert pdf_file "ocr"], .uncaughtExc)
  else
    ([Ev.convert pdf_file "ocr",
      Ev.writeFile "output/companies_house_document_2_text.txt",
      Ev.writeFile "output/companies_house_document_2_content.md"], .finished)

end FastGpuParser

namespace ImageExtractor

/-- Hardcoded input of the module-level script `image_extractor.py`. -/
def pdf_file : String := "companies_house_document_2.pdf"

/-- Per-image save loop of `image_extractor.py`: each iteration is wrapped
in its own `try`/`except`, so a failing image save logs a warning and the
loop continues with the next image (`imgFails` lists, per picture, whether
its save raises). -/
def image_loop (imgFails : List Bool) : List Ev :=
  (imgFails.enum).foldl (fun tr ib =>
    tr ++ (if ib.2 then [Ev.warn ("Error saving image " ++ toString (ib.1 + 1))]
           else [Ev.writeFile ("output/images/image_" ++ toString (ib.1 + 1) ++ ".png")])) []

/-- Module-level body of `image_extractor.py`: the conversion and export
calls are not wrapped (uncaught on failure); the per-image loop is wrapped
per item; afterwards the text, enhanced-markdown and images-JSON files are
written. -/
def run (sys : Sys) (imgFails : List Bool) : List Ev × Outcome :=
  if sys.convertFails pdf_file then ([Ev.convert pdf_file "ocr"], .uncaughtExc)
  else
    ([Ev.convert pdf_file "ocr"] ++ image_loop imgFails ++
      [Ev.writeFile "output/companies_house_document_2_text.txt",
       Ev.writeFile "output/companies_house_document_2_content.md",
       Ev.writeFile "output/companies_house_document_2_images.json"], .finished)

end ImageExtractor

namespace SimpleVlmParser

/-- Hardcoded input of the module-level script `simple_vlm_parser.py`. -/
def pdf_file : String := "companies_house_document_2.pdf"

/-- Module-level body of `simple_vlm_parser.py`: both conversion attempts
(default transformers, then MLX) are individually wrapped in
`try`/`except` that print a warning and fall through, so the script always
reaches its final print and terminates normally — even when the PDF is
missing, the process status is 0. -/
def run (sys : Sys) : List Ev × Outcome :=
  let attempt1 : List Ev :=
    if sys.convertFails pdf_file then [Ev.convert pdf_file "vlm", Ev.warn "Default method failed"]
    else [Ev.convert pdf_file "vlm", Ev.writeFile "output/vlm_default_output.md"]
  let attempt2 : List Ev :=
    if sys.convertFails pdf_file then [Ev.convert pdf_file "vlm_mlx", Ev.warn "MLX method failed"]
    else [Ev.convert pdf_file "vlm_mlx", Ev.writeFile "output/vlm_mlx_output.md"]
  (attempt1 ++ attempt2, .finished)

end SimpleVlmParser

/-! ## Helpers for stating the claims -/

/-- Trace contains no converter invocation. -/
def noConvert (tr : List Ev) : Bool := tr.all (fun e => !e.isConvert)

/-- Trace contains no worker spawn. -/
def noSpawn (tr : List Ev) : Bool := tr.all (fun e => !e.isSpawn)

/-- The file paths a trace writes, in order. -/
def writesOf (tr : List Ev) : List String :=
  tr.filterMap (fun e =>
    match e with
    | Ev.writeFile p => some p
    | _ => none)

/-- The list stored under `"pages"` in a content dictionary. -/
def pagesList (d : Dict) : List Val :=
  match d.lookup "pages" with
  | some (.vlist xs) => xs
  | _ => []

/-- Key lookup inside a nested dictionary value. -/
def valLookup : Val → String → Option Val
  | .vdict es, k => es.lookup k
  | _, _ => none

/-- Concrete world: every file exists, every conversion succeeds. -/
def sysW : Sys :=
  ⟨fun _ => true, fun _ => false, fun _ _ => ⟨"text", "md", 1, 2, 3⟩,
   fun _ => ⟨"t", "m", 0, 0, 1⟩, fun _ => 4⟩

/-- Concrete world: files exist but every conversion raises. -/
def sysAllFail : Sys :=
  ⟨fun _ => true, fun _ => true, fun _ _ => ⟨"", "", 0, 0, 0⟩,
   fun _ => ⟨"", "", 0, 0, 0⟩, fun _ => 1⟩

/-- Concrete world: no file exists, so every conversion raises. -/
def sysMissing : Sys :=
  ⟨fun _ => false, fun _ => true, fun _ _ => ⟨"", "", 0, 0, 0⟩,
   fun _ => ⟨"", "", 0, 0, 0⟩, fun _ => 0⟩

/-- Concrete world: conversion fails exactly on `bad.pdf`. -/
def sysP : Sys :=
  ⟨fun _ => true, fun p => p == "bad.pdf", fun _ _ => ⟨"text", "md", 1, 2, 3⟩,
   fun _ => ⟨"t", "m", 0, 0, 1⟩, fun _ => 4⟩

/-- Empty environment. -/
def env0 : Env := fun _ => none

theorem pagesList_cShape (meta : Val) (pgs tbs fgs : List Val) (tx : String) (st : List Val) :
    pagesList (OfflinePdfParser.cShape meta pgs tbs fgs tx st) = pgs := rfl

theorem cShape_lookup_metadata (meta : Val) (pgs tbs fgs : List Val) (tx : String)
    (st : List Val) :
    (OfflinePdfParser.cShape meta pgs tbs fgs tx st).lookup "metadata" = some meta := rfl

theorem cShape_lookup_text_content (meta : Val) (pgs tbs fgs : List Val) (tx : String)
    (st : List Val) :
    (OfflinePdfParser.cShape meta pgs tbs fgs tx st).lookup "text_content" =
      some (.vstr tx) := rfl

/-! ## Claims -/

/-- C10 counterexample: in `final_offline_parser.extract_table_data` a cell
whose `text` is `" a "` contributes the stripped string `"a"`, not the
cell's text itself, so the claim that each `rows` entry lists the row's
cell texts fails on the final parser's version. -/
theorem c10_counterexample :
    (FinalOfflineParser.extract_table_data
        ⟨"Table", none, none, none, some [⟨some [⟨some " a "⟩]⟩], none⟩).lookup "rows" =
      some (.vlist [.vlist [.vstr "a"]]) ∧ (" a " : String) ≠ "a" := by
  constructor
  · rfl
  · decide

/-- C10 (amended): for every table element, both `extract_table_data`
versions return a dictionary with exactly the keys `rows`, `headers`,
`caption`; `headers` is always the empty list; each `rows` entry is the
in-order list of that row's cell texts, with `""` for a cell without a
`text` attribute — raw in `offline_pdf_parser`, whitespace-stripped in
`final_offline_parser`. -/
theorem c10_table_data_invariants (t : Element) :
    dictKeys (OfflinePdfParser.extract_table_data t) = ["rows", "headers", "caption"] ∧
    (OfflinePdfParser.extract_table_data t).lookup "headers" = some (.vlist []) ∧
    (OfflinePdfParser.extract_table_data t).lookup "rows" =
      some (.vlist ((t.rows.getD []).map (fun r =>
        Val.vlist ((r.cells.getD []).map (fun c => Val.vstr (c.text.getD "")))))) ∧
    (OfflinePdfParser.extract_table_data t).lookup "caption" =
      some (.vstr (t.caption.getD "")) ∧
    dictKeys (FinalOfflineParser.extract_table_data t) = ["rows", "headers", "caption"] ∧
    (FinalOfflineParser.extract_table_data t).lookup "headers" = some (.vlist []) ∧
    (FinalOfflineParser.extract_table_data t).lookup "rows" =
      some (.vlist ((t.rows.getD []).map (fun r =>
        Val.vlist ((r.cells.getD []).map (fun c => Val.vstr (pyStrip (c.text.getD ""))))))) := by
  rw [OfflinePdfParser.extract_table_data_eq, FinalOfflineParser.final_extract_table_data_eq]
  refine ⟨rfl, rfl, ?_, rfl, rfl, rfl, ?_⟩
  · simp [OfflinePdfParser.tdShape, List.lookup, OfflinePdfParser.rowVal]
  · simp [OfflinePdfParser.tdShape, List.lookup, FinalOfflineParser.rowValStripped]

/-- C7 counterexample: on a document object without a `pages` attribute,
`extract_document_content` raises `AttributeError` at the unguarded
`enumerate(document.pages)` instead of returning a dictionary, so the
claim does not hold for every document. -/
theorem c7_counterexample :
    OfflinePdfParser.extract_document_content ⟨none, none⟩ =
      Except.error "AttributeError: pages" := rfl

/-- C7 (amended): for every document whose `pages` attribute is present,
`extract_document_content` returns a dictionary with exactly the keys
`metadata`, `pages`, `tables`, `figures`, `text_content`, `structure`;
`metadata.page_count` is the number of pages; the `pages` list has one
entry per document page, in order, with `page_number` equal to its 1-based
position; and `text_content` is the concatenation of the per-page `text`
fields. -/
theorem c7_document_content (document : Document) (ps : List Page)
    (h : document.pages = some ps) :
    (OfflinePdfParser.extract_document_content document).map dictKeys =
      .ok ["metadata", "pages", "tables", "figures", "text_content", "structure"] ∧
    (OfflinePdfParser.extract_document_content document).map (fun d => d.lookup "metadata") =
      .ok (some (.vdict
        [("title", .vstr (document.name.getD "Unknown")),
         ("page_count", .vnat ps.length),
         ("processing_info", .vstr "Processed offline with Docling")])) ∧
    (OfflinePdfParser.extract_document_content document).map (fun d => (pagesList d).length) =
      .ok ps.length ∧
    (∀ i, ∀ hi : i < ps.length,
      (OfflinePdfParser.extract_document_content document).map (fun d => (pagesList d).get? i) =
        .ok (some (OfflinePdfParser.page_content_val i (ps.get ⟨i, hi⟩)))) ∧
    (∀ i, ∀ page : Page,
      valLookup (OfflinePdfParser.page_content_val i page) "page_number" =
        some (.vnat (i + 1)) ∧
      valLookup (OfflinePdfParser.page_content_val i page) "text" =
        some (.vstr (OfflinePdfParser.pageText page))) ∧
    (OfflinePdfParser.extract_document_content document).map (fun d => d.lookup "text_content") =
      .ok (some (.vstr (joinStrings (ps.map OfflinePdfParser.pageText)))) := by
  rw [OfflinePdfParser.extract_document_content_spec document ps h]
  refine ⟨rfl, ?_, ?_, ?_, ?_, ?_⟩
  · simp only [Except.map, cShape_lookup_metadata, OfflinePdfParser.metadata_val, h]
  · simp only [Except.map, pagesList_cShape]
    simp
  · intro i hi
    simp only [Except.map, pagesList_cShape]
    rw [List.get?_map, List.get?_enum, List.get?_eq_get hi]
    rfl
  · intro i page
    exact ⟨rfl, rfl⟩
  · simp only [Except.map, cShape_lookup_text_content]

/-- C7 witness: the amended claim evaluated on a one-page document with a
single text element. -/
theorem c7_witness :
    (OfflinePdfParser.extract_document_content
        ⟨some "Doc", some [⟨some [⟨"Text", some "hi", none, none, none, none⟩]⟩]⟩).map dictKeys =
      .ok ["metadata", "pages", "tables", "figures", "text_content", "structure"] :=
  (c7_document_content ⟨some "Doc", some [⟨some [⟨"Text", some "hi", none, none, none, none⟩]⟩]⟩
    [⟨some [⟨"Text", some "hi", none, none, none, none⟩]⟩] rfl).1

/-- C6: the extraction walk over page elements and items is total under
attribute probing: the offline walk returns a dictionary on every document
with a `pages` attribute, whatever the elements contain; an element
without a `text` attribute leaves the page text unchanged and records an
empty string in its `element_info`; a table without `rows` yields an empty
`rows` list; a row without `cells` yields an empty row; a figure element
without `caption` records an empty caption; an item without `children` is
walked without recursion, and an item with none of the probed attributes
and an unrecognised class contributes nothing at all. -/
theorem c6_walk_total_skips :
    (∀ document : Document, ∀ ps : List Page, document.pages = some ps →
      ∃ d, OfflinePdfParser.extract_document_content document = .ok d) ∧
    (∀ e : Element, e.text = none →
      ∀ i n : Nat, ∀ tx : String, ∀ els ptbs pfgs : List Val, ∀ meta : Val,
        ∀ pgs tbs fgs : List Val, ∀ txc : String, ∀ st : List Val,
        lookupStr (OfflinePdfParser.process_element i
          (OfflinePdfParser.pcShape n tx els ptbs pfgs,
           OfflinePdfParser.cShape meta pgs tbs fgs txc st) e).1 "text" = tx ∧
        valLookup (OfflinePdfParser.element_info e) "text" = some (.vstr "")) ∧
    (∀ t : Element, t.rows = none →
      (OfflinePdfParser.extract_table_data t).lookup "rows" = some (.vlist [])) ∧
    (∀ r : Row, r.cells = none → OfflinePdfParser.row_data r = []) ∧
    (∀ i : Nat, ∀ e : Element, e.caption = none →
      valLookup (OfflinePdfParser.figure_data i e) "caption" = some (.vstr "")) ∧
    (∀ cn : String, ∀ tx : Option String, ∀ rws : Option (List Row),
      ∀ cap : Option String, ∀ lv : Option Nat, ∀ level : Nat,
      FinalOfflineParser.extract_text_from_item (.mk cn tx rws cap lv none) level =
        FinalOfflineParser.ownParts (.mk cn tx rws cap lv none) level) ∧
    (∀ cn : String, ∀ level : Nat, cn ≠ "TableItem" → cn ≠ "PictureItem" →
      cn ≠ "HeadingItem" → cn ≠ "ListItem" →
      FinalOfflineParser.extract_text_from_item (.mk cn none none none none none) level = []) := by
  refine ⟨?_, ?_, ?_, ?_, ?_, ?_, ?_⟩
  · intro document ps h
    exact OfflinePdfParser.extract_document_content_isOk document ps h
  · intro e he i n tx els ptbs pfgs meta pgs tbs fgs txc st
    rw [OfflinePdfParser.process_element_shape]
    constructor
    · rw [OfflinePdfParser.lookupStr_pcShape_text, OfflinePdfParser.elementText, he]
      simp
    · simp [OfflinePdfParser.element_info, valLookup, he, List.lookup]
  · intro t ht
    rw [OfflinePdfParser.extract_table_data_eq, ht]
    rfl
  · intro r hr
    unfold OfflinePdfParser.row_data
    rw [hr]
  · intro i e he
    simp [OfflinePdfParser.figure_data, valLookup, he, List.lookup]
  · intro cn tx rws cap lv level
    rfl
  · intro cn level h1 h2 h3 h4
    show FinalOfflineParser.ownParts (.mk cn none none none none none) level = []
    simp [FinalOfflineParser.ownParts, Item.className, Item.text, Item.rows, Item.caption,
      h1, h2, h3, h4]

/-- C6 witness: the skip behaviour evaluated at concrete inputs — a
bare element, a table element without rows, a row without cells, and a
childless unrecognised item. -/
theorem c6_witness :
    (∃ d, OfflinePdfParser.extract_document_content ⟨some "n", some [⟨none⟩]⟩ = .ok d) ∧
    (OfflinePdfParser.extract_table_data ⟨"Table", none, none, none, none, none⟩).lookup "rows" =
      some (.vlist []) ∧
    OfflinePdfParser.row_data ⟨none⟩ = [] ∧
    FinalOfflineParser.extract_text_from_item (.mk "TextItem" none none none none none) 0 = [] :=
  ⟨(c6_walk_total_skips.1 ⟨some "n", some [⟨none⟩]⟩ [⟨none⟩] rfl),
   c6_walk_total_skips.2.2.1 ⟨"Table", none, none, none, none, none⟩ rfl,
   c6_walk_total_skips.2.2.2.1 ⟨none⟩ rfl,
   c6_walk_total_skips.2.2.2.2.2.2 "TextItem" 0 (by decide) (by decide) (by decide) (by decide)⟩

/-- C4: in `parallel_gpu_parser.main`, for every file list and every
`num_gpus >= 1`, the i-th submitted task (0-based submission order) pairs
the i-th file with `gpu_id = i % num_gpus`, the worker sets
`CUDA_VISIBLE_DEVICES` to exactly that id, and the id is a valid GPU
index. -/
theorem c4_gpu_distribution (pdf_files : List String) (num_gpus : Nat) (sys : Sys)
    (hg : 1 ≤ num_gpus) (i : Nat) (hi : i < pdf_files.length) :
    (ParallelGpuParser.submissions pdf_files num_gpus).get? i =
      some (pdf_files.get ⟨i, hi⟩, i % num_gpus) ∧
    (ParallelGpuParser.process_single_pdf sys (pdf_files.get ⟨i, hi⟩) (i % num_gpus)).envCuda =
      toString (i % num_gpus) ∧
    i % num_gpus < num_gpus := by
  refine ⟨?_, ?_, Nat.mod_lt i hg⟩
  · unfold ParallelGpuParser.submissions
    rw [List.get?_map, List.get?_enum, List.get?_eq_get hi]
    rfl
  · unfold ParallelGpuParser.process_single_pdf
    split <;> rfl

/-- C4 witness: with three files and two GPUs, the third file goes to GPU
`2 % 2 = 0` and the worker records that id. -/
theorem c4_witness :
    (ParallelGpuParser.submissions ["a.pdf", "b.pdf", "c.pdf"] 2).get? 2 =
      some (["a.pdf", "b.pdf", "c.pdf"].get ⟨2, by decide⟩, 2 % 2) ∧
    (ParallelGpuParser.process_single_pdf sysW
      (["a.pdf", "b.pdf", "c.pdf"].get ⟨2, by decide⟩) (2 % 2)).envCuda = toString (2 % 2) ∧
    2 % 2 < 2 :=
  c4_gpu_distribution ["a.pdf", "b.pdf", "c.pdf"] 2 sysW (by decide) 2 (by decide)

theorem process_single_pdf_result_none (sys : Sys) (f : String) (gid : Nat)
    (hf : sys.convertFails f = true) :
    (ParallelGpuParser.process_single_pdf sys f gid).result = none := by
  unfold ParallelGpuParser.process_single_pdf
  simp [hf]

theorem process_single_pdf_result_some (sys : Sys) (f : String) (gid : Nat)
    (hf : sys.convertFails f = false) :
    (ParallelGpuParser.process_single_pdf sys f gid).result =
      some (ParallelGpuParser.worker_content sys f gid) := by
  unfold ParallelGpuParser.process_single_pdf
  simp [hf]

theorem submittedResults_filterMap (sys : Sys) (pdf_files : List String) (num_gpus : Nat) :
    (ParallelGpuParser.submittedResults sys pdf_files num_gpus).filterMap id =
      ((ParallelGpuParser.submissions pdf_files num_gpus).filter
          (fun fg => !sys.convertFails fg.1)).map
        (fun fg => ParallelGpuParser.worker_content sys fg.1 fg.2) := by
  unfold ParallelGpuParser.submittedResults
  rw [List.filterMap_map, Function.id_comp]
  induction ParallelGpuParser.submissions pdf_files num_gpus with
  | nil => rfl
  | cons fg L ih =>
    rw [List.filter_cons, List.filterMap_cons]
    cases hf : sys.convertFails fg.1 with
    | true =>
      simp only [process_single_pdf_result_none sys fg.1 fg.2 hf, hf, Bool.not_true,
        Bool.false_eq_true, if_false]
      exact ih
    | false =>
      simp only [process_single_pdf_result_some sys fg.1 fg.2 hf, hf, Bool.not_false, if_true,
        List.map_cons]
      rw [ih]

/-- C5: a parallel worker whose conversion raises returns `None`, and the
`as_completed` collection loop keeps exactly the dictionaries of the
successful conversions — stated for every arrival order (a permutation of
the submitted futures), with the collected list a permutation of the
successes. -/
theorem c5_collect_successes (sys : Sys) (pdf_files : List String) (num_gpus : Nat)
    (arrival : List (Option ParallelGpuParser.PContent))
    (hperm : arrival.Perm (ParallelGpuParser.submittedResults sys pdf_files num_gpus)) :
    (∀ f : String, ∀ gid : Nat, sys.convertFails f = true →
      (ParallelGpuParser.process_single_pdf sys f gid).result = none) ∧
    (ParallelGpuParser.collectResults arrival).Perm
      (((ParallelGpuParser.submissions pdf_files num_gpus).filter
          (fun fg => !sys.convertFails fg.1)).map
        (fun fg => ParallelGpuParser.worker_content sys fg.1 fg.2)) := by
  constructor
  · intro f gid hf
    unfold ParallelGpuParser.process_single_pdf
    simp [hf]
  · rw [ParallelGpuParser.collectResults_eq_filterMap, ← submittedResults_filterMap]
    exact hperm.filterMap id

/-- C5 witness: two files of which one fails, delivered in reverse order:
the failing worker returns `None` and the collected results are exactly
the one success. -/
theorem c5_witness :
    (ParallelGpuParser.process_single_pdf sysP "bad.pdf" 0).result = none ∧
    (ParallelGpuParser.collectResults
        [none, some (ParallelGpuParser.worker_content sysP "a.pdf" 0)]).Perm
      (((ParallelGpuParser.submissions ["a.pdf", "bad.pdf"] 1).filter
          (fun fg => !sysP.convertFails fg.1)).map
        (fun fg => ParallelGpuParser.worker_content sysP fg.1 fg.2)) :=
  ⟨(c5_collect_successes sysP ["a.pdf", "bad.pdf"] 1
      [none, some (ParallelGpuParser.worker_content sysP "a.pdf" 0)] (by decide)).1
    "bad.pdf" 0 (by decide),
   (c5_collect_successes sysP ["a.pdf", "bad.pdf"] 1
      [none, some (ParallelGpuParser.worker_content sysP "a.pdf" 0)] (by decide)).2⟩

/-- C9 counterexample: one PDF whose conversion fails — the summary is
reached (the directory is non-empty), `results` is empty, and the division
`total_time / len(results)` is reached with divisor `len(results) = 0`,
raising `ZeroDivisionError`; the claim that `len(results) >= 1` holds
whenever the summary executes is false. -/
theorem c9_counterexample :
    ParallelGpuParser.main_run sysAllFail ["a.pdf"] 1
      (ParallelGpuParser.submittedResults sysAllFail ["a.pdf"] 1) 10 =
      .error "ZeroDivisionError: len(results)" ∧
    ParallelGpuParser.collectResults
      (ParallelGpuParser.submittedResults sysAllFail ["a.pdf"] 1) = [] :=
  ⟨rfl, rfl⟩

/-- C9 (amended): whenever at least one submitted conversion succeeds,
`len(results) >= 1`, and the summary's divisions run with non-zero
divisors (given non-zero wall-clock time); when every conversion fails the
summary raises `ZeroDivisionError`. -/
theorem c9_summary_divisors (sys : Sys) (pdf_files : List String) (num_gpus : Nat)
    (arrival : List (Option ParallelGpuParser.PContent)) (total_time : Nat)
    (hperm : arrival.Perm (ParallelGpuParser.submittedResults sys pdf_files num_gpus))
    (hsucc : ∃ fg, fg ∈ ParallelGpuParser.submissions pdf_files num_gpus ∧
      sys.convertFails fg.1 = false) :
    1 ≤ (ParallelGpuParser.collectResults arrival).length ∧
    (0 < total_time → ∃ out,
      ParallelGpuParser.main_run sys pdf_files num_gpus arrival total_time = .ok out) := by
  obtain ⟨fg, hmem, hok⟩ := hsucc
  have hres : ParallelGpuParser.worker_content sys fg.1 fg.2 ∈
      (ParallelGpuParser.submittedResults sys pdf_files num_gpus).filterMap id := by
    rw [submittedResults_filterMap]
    exact List.mem_map_of_mem _ (List.mem_filter_of_mem hmem (by simp [hok]))
  have hlen : 1 ≤ (ParallelGpuParser.collectResults arrival).length := by
    rw [ParallelGpuParser.collectResults_eq_filterMap]
    have hp := (hperm.filterMap id).length_eq
    rw [hp]
    exact List.length_pos_of_mem hres
  refine ⟨hlen, fun ht => ?_⟩
  have hne : pdf_files.isEmpty = false := by
    cases pdf_files with
    | nil => simp [ParallelGpuParser.submissions] at hmem
    | cons a l => rfl
  refine ⟨(ParallelGpuParser.collectResults arrival,
      total_time / (ParallelGpuParser.collectResults arrival).length,
      ((ParallelGpuParser.collectResults arrival).map (fun r => r.processing_time)).sum /
        total_time), ?_⟩
  unfold ParallelGpuParser.main_run
  have h1 : ¬(ParallelGpuParser.collectResults arrival).length = 0 := by omega
  have h2 : ¬total_time = 0 := by omega
  simp only [hne, Bool.false_eq_true, if_false, h1, h2]

theorem ocr_trace (sys : Sys) (p : String) (g : Bool) :
    (MultiprocessParser.process_full_document_ocr sys p g).1 = [Ev.convert p "ocr"] := by
  unfold MultiprocessParser.process_full_document_ocr
  split <;> rfl

theorem vlm_trace (sys : Sys) (p : String) :
    (MultiprocessParser.process_full_document_vlm sys p).1 = [Ev.convert p "vlm"] := by
  unfold MultiprocessParser.process_full_document_vlm
  split <;> rfl

/-- C8: `process_with_multiprocessing` with `num_processes > 1` performs
exactly the same single whole-document conversion in the calling process as
with `num_processes = 1` — identical conversion result, identical trace
consisting of one conversion call and no spawned worker — and the resulting
environments agree on every variable other than the three thread-count
variables. -/
theorem c8_multiprocessing_refines_single (sys : Sys) (pdf_path method : String)
    (use_gpu : Bool) (env : Env) (num_processes : Int) (h : 1 < num_processes) :
    (MultiprocessParser.process_with_multiprocessing sys pdf_path method use_gpu
        num_processes env).2.2 =
      (MultiprocessParser.process_with_multiprocessing sys pdf_path method use_gpu 1 env).2.2 ∧
    (MultiprocessParser.process_with_multiprocessing sys pdf_path method use_gpu
        num_processes env).2.1 =
      (MultiprocessParser.process_with_multiprocessing sys pdf_path method use_gpu 1 env).2.1 ∧
    (MultiprocessParser.process_with_multiprocessing sys pdf_path method use_gpu
        num_processes env).2.1 =
      [Ev.convert pdf_path (if method = "ocr" then "ocr" else "vlm")] ∧
    noSpawn (MultiprocessParser.process_with_multiprocessing sys pdf_path method use_gpu
        num_processes env).2.1 = true ∧
    (∀ k : String, ¬k = "OMP_NUM_THREADS" → ¬k = "MKL_NUM_THREADS" →
      ¬k = "NUMEXPR_NUM_THREADS" →
      (MultiprocessParser.process_with_multiprocessing sys pdf_path method use_gpu
          num_processes env).1 k =
        (MultiprocessParser.process_with_multiprocessing sys pdf_path method use_gpu 1 env).1 k) := by
  have hn : ¬num_processes ≤ 1 := by omega
  unfold MultiprocessParser.process_with_multiprocessing
  rw [if_neg hn, if_pos (le_refl (1 : Int))]
  by_cases hm : method = "ocr"
  · rw [if_pos hm, if_pos hm]
    refine ⟨rfl, rfl, ?_, ?_, ?_⟩
    · rw [show ((MultiprocessParser.setup_offline env |> fun e =>
        setEnv e "OMP_NUM_THREADS" (toString num_processes) |> fun e =>
        setEnv e "MKL_NUM_THREADS" (toString num_processes) |> fun e =>
        setEnv e "NUMEXPR_NUM_THREADS" (toString num_processes),
        MultiprocessParser.process_full_document_ocr sys pdf_path use_gpu) : Env × _).2.1 =
          (MultiprocessParser.process_full_document_ocr sys pdf_path use_gpu).1 from rfl]
      rw [ocr_trace, if_pos hm]
    · rw [show ((MultiprocessParser.setup_offline env |> fun e =>
        setEnv e "OMP_NUM_THREADS" (toString num_processes) |> fun e =>
        setEnv e "MKL_NUM_THREADS" (toString num_processes) |> fun e =>
        setEnv e "NUMEXPR_NUM_THREADS" (toString num_processes),
        MultiprocessParser.process_full_document_ocr sys pdf_path use_gpu) : Env × _).2.1 =
          (MultiprocessParser.process_full_document_ocr sys pdf_path use_gpu).1 from rfl]
      rw [ocr_trace]
      rfl
    · intro k h1 h2 h3
      show setEnv (setEnv (setEnv (MultiprocessParser.setup_offline env)
          "OMP_NUM_THREADS" (toString num_processes))
          "MKL_NUM_THREADS" (toString num_processes))
          "NUMEXPR_NUM_THREADS" (toString num_processes) k =
        MultiprocessParser.setup_offline env k
      simp [setEnv, h1, h2, h3]
  · rw [if_neg hm, if_neg hm]
    refine ⟨rfl, rfl, ?_, ?_, ?_⟩
    · rw [show ((MultiprocessParser.setup_offline env |> fun e =>
        setEnv e "OMP_NUM_THREADS" (toString num_processes) |> fun e =>
        setEnv e "MKL_NUM_THREADS" (toString num_processes) |> fun e =>
        setEnv e "NUMEXPR_NUM_THREADS" (toString num_processes),
        MultiprocessParser.process_full_document_vlm sys pdf_path) : Env × _).2.1 =
          (MultiprocessParser.process_full_document_vlm sys pdf_path).1 from rfl]
      rw [vlm_trace, if_neg hm]
    · rw [show ((MultiprocessParser.setup_offline env |> fun e =>
        setEnv e "OMP_NUM_THREADS" (toString num_processes) |> fun e =>
        setEnv e "MKL_NUM_THREADS" (toString num_processes) |> fun e =>
        setEnv e "NUMEXPR_NUM_THREADS" (toString num_processes),
        MultiprocessParser.process_full_document_vlm sys pdf_path) : Env × _).2.1 =
          (MultiprocessParser.process_full_document_vlm sys pdf_path).1 from rfl]
      rw [vlm_trace]
      rfl
    · intro k h1 h2 h3
      show setEnv (setEnv (setEnv (MultiprocessParser.setup_offline env)
          "OMP_NUM_THREADS" (toString num_processes))
          "MKL_NUM_THREADS" (toString num_processes))
          "NUMEXPR_NUM_THREADS" (toString num_processes) k =
        MultiprocessParser.setup_offline env k
      simp [setEnv, h1, h2, h3]

/-- C8 witness: four processes versus one, OCR method, on a concrete
world — equal result and an untouched unrelated variable. -/
theorem c8_witness :
    (MultiprocessParser.process_with_multiprocessing sysW "fin.pdf" "ocr" true 4 env0).2.2 =
      (MultiprocessParser.process_with_multiprocessing sysW "fin.pdf" "ocr" true 1 env0).2.2 ∧
    (MultiprocessParser.process_with_multiprocessing sysW "fin.pdf" "ocr" true 4 env0).1 "HOME" =
      (MultiprocessParser.process_with_multiprocessing sysW "fin.pdf" "ocr" true 1 env0).1 "HOME" :=
  ⟨(c8_multiprocessing_refines_single sysW "fin.pdf" "ocr" true env0 4 (by decide)).1,
   (c8_multiprocessing_refines_single sysW "fin.pdf" "ocr" true env0 4 (by decide)).2.2.2.2
     "HOME" (by decide) (by decide) (by decide)⟩

/-- C9 witness: the amended claim evaluated on one succeeding file. -/
theorem c9_witness :
    1 ≤ (ParallelGpuParser.collectResults
      (ParallelGpuParser.submittedResults sysW ["a.pdf"] 1)).length :=
  (c9_summary_divisors sysW ["a.pdf"] 1
    (ParallelGpuParser.submittedResults sysW ["a.pdf"] 1) 10 (by decide)
    ⟨("a.pdf", 0), by decide, by decide⟩).1

theorem writesOf_map_writeFile (l : List String) : writesOf (l.map Ev.writeFile) = l := by
  induction l with
  | nil => rfl
  | cons a l ih =>
    show a :: writesOf (l.map Ev.writeFile) = a :: l
    rw [ih]

theorem writesOf_append (l1 l2 : List Ev) :
    writesOf (l1 ++ l2) = writesOf l1 ++ writesOf l2 := by
  unfold writesOf
  rw [List.filterMap_append]

theorem ocr_error (sys : Sys) (p : String) (g : Bool) (hf : sys.convertFails p = true) :
    (MultiprocessParser.process_full_document_ocr sys p g).2 = .error "ConversionError" := by
  unfold MultiprocessParser.process_full_document_ocr
  simp [hf]

theorem vlm_error (sys : Sys) (p : String) (hf : sys.convertFails p = true) :
    (MultiprocessParser.process_full_document_vlm sys p).2 = .error "ConversionError" := by
  unfold MultiprocessParser.process_full_document_vlm
  simp [hf]

theorem pwm_error (sys : Sys) (p m : String) (g : Bool) (n : Int) (env : Env)
    (hf : sys.convertFails p = true) :
    (MultiprocessParser.process_with_multiprocessing sys p m g n env).2.2 =
      .error "ConversionError" := by
  unfold MultiprocessParser.process_with_multiprocessing
  split
  · split
    · exact ocr_error sys p g hf
    · exact vlm_error sys p hf
  · split
    · exact ocr_error sys p g hf
    · exact vlm_error sys p hf

theorem pwm_ok (sys : Sys) (p m : String) (g : Bool) (n : Int) (env : Env)
    (hf : sys.convertFails p = false) :
    ∃ stats, (MultiprocessParser.process_with_multiprocessing sys p m g n env).2.2 =
      .ok stats := by
  unfold MultiprocessParser.process_with_multiprocessing
    MultiprocessParser.process_full_document_ocr MultiprocessParser.process_full_document_vlm
  split
  · split <;> simp [hf]
  · split <;> simp [hf]

theorem pwm_trace (sys : Sys) (p m : String) (g : Bool) (n : Int) (env : Env) :
    (MultiprocessParser.process_with_multiprocessing sys p m g n env).2.1 =
      [Ev.convert p (if m = "ocr" then "ocr" else "vlm")] := by
  unfold MultiprocessParser.process_with_multiprocessing
  by_cases hm : m = "ocr" <;> split <;> simp [hm, ocr_trace, vlm_trace]

/-- C3 counterexample: a successful run of `multiprocess_parser.main` on
`report.pdf` writes exactly `output/report_ocr_multiprocess.txt` and
`output/report_ocr_multiprocess.md` — none of the claimed files
`report_text.txt`, `report_content.md`, `report_content.json` — so the
claim fails for this parser script. -/
theorem c3_counterexample :
    MultiprocessParser.main_after_args sysW env0 "report.pdf" "ocr" 1 true =
      ([Ev.checkExists "report.pdf", Ev.convert "report.pdf" "ocr",
        Ev.writeFile "output/report_ocr_multiprocess.txt",
        Ev.writeFile "output/report_ocr_multiprocess.md"], .finished) ∧
    ¬Ev.writeFile "output/report_text.txt" ∈
      (MultiprocessParser.main_after_args sysW env0 "report.pdf" "ocr" 1 true).1 ∧
    ¬Ev.writeFile "output/report_content.md" ∈
      (MultiprocessParser.main_after_args sysW env0 "report.pdf" "ocr" 1 true).1 ∧
    ¬Ev.writeFile "output/report_content.json" ∈
      (MultiprocessParser.main_after_args sysW env0 "report.pdf" "ocr" 1 true).1 := by
  refine ⟨by decide, by decide, by decide, by decide⟩

/-- C3 (amended): the files a successful run writes, per script —
`offline_pdf_parser` and `final_offline_parser` write
`<name>_text.txt`, `<name>_content.md`, `<name>_content.json` into
`output/`; `multi_gpu_offline_parser` writes `<name>_text.txt`,
`<name>_content.md` and `<name>_data.json`; `multiprocess_parser` writes
`<name>_<method>_multiprocess.txt` and `.md`; a parallel-GPU worker writes
`<name>_text.txt` and `<name>_content.md` into `output_gpu_<id>/`. -/
theorem c3_output_files (sys : Sys) (argv : List String) (env : Env)
    (pdf method : String) (num_processes : Int) (use_gpu : Bool) (gid : Nat) :
    (sys.fileExists OfflinePdfParser.pdf_file = true → sys.fileExists artifacts_path = true →
      sys.convertFails OfflinePdfParser.pdf_file = false →
      (OfflinePdfParser.main_run sys).2 = .finished ∧
      writesOf (OfflinePdfParser.main_run sys).1 =
        ["output/companies_house_document_content.json",
         "output/companies_house_document_content.md",
         "output/companies_house_document_text.txt"]) ∧
    (sys.fileExists FinalOfflineParser.pdf_file = true → sys.fileExists artifacts_path = true →
      sys.convertFails FinalOfflineParser.pdf_file = false →
      (FinalOfflineParser.main_run sys).2 = .finished ∧
      writesOf (FinalOfflineParser.main_run sys).1 =
        ["output/companies_house_document_content.json",
         "output/companies_house_document_content.md",
         "output/companies_house_document_text.txt"]) ∧
    (sys.fileExists ((argv[1]?).getD "companies_house_document.pdf") = true →
      sys.fileExists artifacts_path = true →
      sys.convertFails ((argv[1]?).getD "companies_house_document.pdf") = false →
      (MultiGpuOfflineParser.main_run sys argv).2 = .finished ∧
      writesOf (MultiGpuOfflineParser.main_run sys argv).1 =
        ["output/" ++ pyStem ((argv[1]?).getD "companies_house_document.pdf") ++ "_text.txt",
         "output/" ++ pyStem ((argv[1]?).getD "companies_house_document.pdf") ++ "_content.md",
         "output/" ++ pyStem ((argv[1]?).getD "companies_house_document.pdf") ++ "_data.json"]) ∧
    (sys.fileExists pdf = true → sys.convertFails pdf = false →
      (MultiprocessParser.main_after_args sys env pdf method num_processes use_gpu).2 =
        .finished ∧
      writesOf (MultiprocessParser.main_after_args sys env pdf method num_processes use_gpu).1 =
        ["output/" ++ pyStem pdf ++ "_" ++ method ++ "_multiprocess.txt",
         "output/" ++ pyStem pdf ++ "_" ++ method ++ "_multiprocess.md"]) ∧
    (sys.convertFails pdf = false →
      (ParallelGpuParser.process_single_pdf sys pdf gid).writes =
        ["output_gpu_" ++ toString gid ++ "/" ++ pyStem pdf ++ "_text.txt",
         "output_gpu_" ++ toString gid ++ "/" ++ pyStem pdf ++ "_content.md"]) := by
  refine ⟨?_, ?_, ?_, ?_, ?_⟩
  · intro h1 h2 h3
    unfold OfflinePdfParser.main_run
    simp only [h1, h2, h3, Bool.true_eq_false, Bool.false_eq_true, if_false]
    exact ⟨trivial, by decide⟩
  · intro h1 h2 h3
    unfold FinalOfflineParser.main_run
    simp only [h1, h2, h3, Bool.true_eq_false, Bool.false_eq_true, if_false]
    exact ⟨trivial, by decide⟩
  · intro h1 h2 h3
    unfold MultiGpuOfflineParser.main_run
    simp only [h1, h2, h3, Bool.true_eq_false, Bool.false_eq_true, if_false]
    refine ⟨trivial, ?_⟩
    rw [show writesOf ([Ev.checkExists ((argv[1]?).getD "companies_house_document.pdf"),
        Ev.checkExists artifacts_path,
        Ev.convert ((argv[1]?).getD "companies_house_document.pdf") "ocr"] ++
        (MultiGpuOfflineParser.output_writes "output"
          ((argv[1]?).getD "companies_house_document.pdf")).map Ev.writeFile) =
      writesOf ((MultiGpuOfflineParser.output_writes "output"
          ((argv[1]?).getD "companies_house_document.pdf")).map Ev.writeFile) from rfl]
    rw [writesOf_map_writeFile]
    rfl
  · intro h1 h2
    unfold MultiprocessParser.main_after_args
    simp only [h1, Bool.true_eq_false, Bool.false_eq_true, if_false]
    obtain ⟨stats, hs⟩ := pwm_ok sys pdf method use_gpu num_processes env h2
    simp only [hs]
    refine ⟨trivial, ?_⟩
    rw [pwm_trace]
    rfl
  · intro h1
    unfold ParallelGpuParser.process_single_pdf
    simp [h1]

/-- C3 witness: a successful `offline_pdf_parser` run on the concrete
world writes the three claimed files. -/
theorem c3_witness :
    (OfflinePdfParser.main_run sysW).2 = .finished ∧
    writesOf (OfflinePdfParser.main_run sysW).1 =
      ["output/companies_house_document_content.json",
       "output/companies_house_document_content.md",
       "output/companies_house_document_text.txt"] :=
  (c3_output_files sysW [] env0 "x.pdf" "ocr" 1 true 0).1 rfl rfl rfl

/-- C1 counterexample: `fast_gpu_parser` on its missing hardcoded PDF (the
conversion on a missing file raises in the external library) invokes the
converter and dies of an uncaught exception — it does not exit with status
1 before invoking the converter, so the claim fails for this CLI
script. -/
theorem c1_counterexample :
    Ev.convert FastGpuParser.pdf_file "ocr" ∈ (FastGpuParser.run sysMissing).1 ∧
    (FastGpuParser.run sysMissing).2 = .uncaughtExc ∧
    sysMissing.fileExists FastGpuParser.pdf_file = false := by
  refine ⟨by decide, by decide, rfl⟩

/-- C1 (amended): on a missing PDF path, the scripts that pre-check the
path (`offline_pdf_parser`, `final_offline_parser`,
`multi_gpu_offline_parser`, `multiprocess_parser`) exit with status 1
before invoking the converter; the module-level scripts `fast_gpu_parser`
and `image_extractor` instead invoke the converter on the missing path and
terminate with an uncaught exception (process status 1); and
`simple_vlm_parser` catches its conversion failures and finishes with
process status 0. -/
theorem c1_missing_file (sys : Sys) (argv : List String) (env : Env)
    (pdf method : String) (num_processes : Int) (use_gpu : Bool) (imgFails : List Bool) :
    (sys.fileExists OfflinePdfParser.pdf_file = false →
      (OfflinePdfParser.main_run sys).2 = .exit 1 ∧
      noConvert (OfflinePdfParser.main_run sys).1 = true) ∧
    (sys.fileExists FinalOfflineParser.pdf_file = false →
      (FinalOfflineParser.main_run sys).2 = .exit 1 ∧
      noConvert (FinalOfflineParser.main_run sys).1 = true) ∧
    (sys.fileExists ((argv[1]?).getD "companies_house_document.pdf") = false →
      (MultiGpuOfflineParser.main_run sys argv).2 = .exit 1 ∧
      noConvert (MultiGpuOfflineParser.main_run sys argv).1 = true) ∧
    (sys.fileExists pdf = false →
      MultiprocessParser.main_after_args sys env pdf method num_processes use_gpu =
        ([Ev.checkExists pdf], .exit 1)) ∧
    (sys.fileExists FastGpuParser.pdf_file = false →
      sys.convertFails FastGpuParser.pdf_file = true →
      FastGpuParser.run sys = ([Ev.convert FastGpuParser.pdf_file "ocr"], .uncaughtExc) ∧
      (FastGpuParser.run sys).2.status = 1) ∧
    (sys.fileExists ImageExtractor.pdf_file = false →
      sys.convertFails ImageExtractor.pdf_file = true →
      ImageExtractor.run sys imgFails =
        ([Ev.convert ImageExtractor.pdf_file "ocr"], .uncaughtExc)) ∧
    (sys.convertFails SimpleVlmParser.pdf_file = true →
      (SimpleVlmParser.run sys).2 = .finished ∧
      (SimpleVlmParser.run sys).2.status = 0) := by
  refine ⟨?_, ?_, ?_, ?_, ?_, ?_, ?_⟩
  · intro h
    unfold OfflinePdfParser.main_run
    simp [h, noConvert, Ev.isConvert]
  · intro h
    unfold FinalOfflineParser.main_run
    simp [h, noConvert, Ev.isConvert]
  · intro h
    unfold MultiGpuOfflineParser.main_run
    simp [h, noConvert, Ev.isConvert]
  · intro h
    unfold MultiprocessParser.main_after_args
    simp [h]
  · intro _h hc
    unfold FastGpuParser.run
    simp [hc, Outcome.status]
  · intro _h hc
    unfold ImageExtractor.run
    simp [hc]
  · intro hc
    unfold SimpleVlmParser.run
    simp [hc, Outcome.status]

/-- C1 witness: the pre-checking scripts on the all-missing world exit 1
without converting; `multiprocess_parser` likewise. -/
theorem c1_witness :
    ((OfflinePdfParser.main_run sysMissing).2 = .exit 1 ∧
      noConvert (OfflinePdfParser.main_run sysMissing).1 = true) ∧
    MultiprocessParser.main_after_args sysMissing env0 "x.pdf" "ocr" 1 true =
      ([Ev.checkExists "x.pdf"], .exit 1) :=
  ⟨(c1_missing_file sysMissing [] env0 "x.pdf" "ocr" 1 true []).1 rfl,
   (c1_missing_file sysMissing [] env0 "x.pdf" "ocr" 1 true []).2.2.2.1 rfl⟩

/-- C2 counterexample: in `multiprocess_parser` the conversion call is not
wrapped in any `try`/`except` (neither in `process_full_document_ocr` nor
in `main`), so when it raises, the exception propagates uncaught out of
the script — no warning, no `sys.exit` — refuting the claim that every
external call is wrapped. -/
theorem c2_counterexample :
    (MultiprocessParser.main_after_args sysAllFail env0 "report.pdf" "ocr" 1 true).2 =
      .uncaughtExc ∧
    Ev.convert "report.pdf" "ocr" ∈
      (MultiprocessParser.main_after_args sysAllFail env0 "report.pdf" "ocr" 1 true).1 := by
  refine ⟨by decide, by decide⟩

/-- C2 (amended): the conversion calls in `offline_pdf_parser`,
`final_offline_parser` and `multi_gpu_offline_parser` are wrapped (warning
printed, exit 1); a parallel-GPU worker's wrapped body returns `None`; the
per-image loop of `image_extractor` and both attempts of
`simple_vlm_parser` skip failures and finish; but the module-level
conversion/export calls of `fast_gpu_parser` and `image_extractor` and the
conversion of `multiprocess_parser` are not wrapped, and their exceptions
propagate uncaught out of the script. -/
theorem c2_exception_wrapping (sys : Sys) (argv : List String) (env : Env)
    (pdf method : String) (num_processes : Int) (use_gpu : Bool) (gid : Nat)
    (imgFails : List Bool) :
    (sys.fileExists OfflinePdfParser.pdf_file = true → sys.fileExists artifacts_path = true →
      sys.convertFails OfflinePdfParser.pdf_file = true →
      (OfflinePdfParser.main_run sys).2 = .exit 1 ∧
      Ev.warn "Error during PDF conversion" ∈ (OfflinePdfParser.main_run sys).1) ∧
    (sys.fileExists FinalOfflineParser.pdf_file = true →
      sys.fileExists artifacts_path = true →
      sys.convertFails FinalOfflineParser.pdf_file = true →
      (FinalOfflineParser.main_run sys).2 = .exit 1 ∧
      Ev.warn "Error during PDF conversion" ∈ (FinalOfflineParser.main_run sys).1) ∧
    (sys.fileExists ((argv[1]?).getD "companies_house_document.pdf") = true →
      sys.fileExists artifacts_path = true →
      sys.convertFails ((argv[1]?).getD "companies_house_document.pdf") = true →
      (MultiGpuOfflineParser.main_run sys argv).2 = .exit 1) ∧
    (sys.convertFails pdf = true →
      (ParallelGpuParser.process_single_pdf sys pdf gid).result = none) ∧
    (sys.convertFails ImageExtractor.pdf_file = false →
      (ImageExtractor.run sys imgFails).2 = .finished) ∧
    (SimpleVlmParser.run sys).2 = .finished ∧
    (sys.fileExists pdf = true → sys.convertFails pdf = true →
      (MultiprocessParser.main_after_args sys env pdf method num_processes use_gpu).2 =
        .uncaughtExc) ∧
    (sys.convertFails FastGpuParser.pdf_file = true →
      (FastGpuParser.run sys).2 = .uncaughtExc) ∧
    (sys.convertFails ImageExtractor.pdf_file = true →
      (ImageExtractor.run sys imgFails).2 = .uncaughtExc) := by
  refine ⟨?_, ?_, ?_, ?_, ?_, ?_, ?_, ?_, ?_⟩
  · intro h1 h2 h3
    unfold OfflinePdfParser.main_run
    simp [h1, h2, h3]
  · intro h1 h2 h3
    unfold FinalOfflineParser.main_run
    simp [h1, h2, h3]
  · intro h1 h2 h3
    unfold MultiGpuOfflineParser.main_run
    simp [h1, h2, h3]
  · intro h
    exact process_single_pdf_result_none sys pdf gid h
  · intro h
    unfold ImageExtractor.run
    simp [h]
  · unfold SimpleVlmParser.run
    rfl
  · intro h1 h2
    unfold MultiprocessParser.main_after_args
    simp only [h1, Bool.true_eq_false, Bool.false_eq_true, if_false]
    simp only [pwm_error sys pdf method use_gpu num_processes env h2]
  · intro h
    unfold FastGpuParser.run
    simp [h]
  · intro h
    unfold ImageExtractor.run
    simp [h]

/-- C2 witness: the wrapped conversions of `offline_pdf_parser` and
`final_offline_parser` on the all-failing world exit 1 after warning; the
parallel worker returns `None`; the unwrapped module-level conversion of
`image_extractor` dies uncaught. -/
theorem c2_witness :
    ((OfflinePdfParser.main_run sysAllFail).2 = .exit 1 ∧
      Ev.warn "Error during PDF conversion" ∈ (OfflinePdfParser.main_run sysAllFail).1) ∧
    ((FinalOfflineParser.main_run sysAllFail).2 = .exit 1 ∧
      Ev.warn "Error during PDF conversion" ∈ (FinalOfflineParser.main_run sysAllFail).1) ∧
    (ParallelGpuParser.process_single_pdf sysAllFail "y.pdf" 0).result = none ∧
    (ImageExtractor.run sysAllFail []).2 = .uncaughtExc :=
  ⟨(c2_exception_wrapping sysAllFail [] env0 "y.pdf" "ocr" 1 true 0 []).1 rfl rfl rfl,
   (c2_exception_wrapping sysAllFail [] env0 "y.pdf" "ocr" 1 true 0 []).2.1 rfl rfl rfl,
   (c2_exception_wrapping sysAllFail [] env0 "y.pdf" "ocr" 1 true 0 []).2.2.2.1 rfl,
   (c2_exception_wrapping sysAllFail [] env0 "y.pdf" "ocr" 1 true 0
     []).2.2.2.2.2.2.2.2 rfl⟩

end Docling
